import Mathlib

/-!
Verification of the background-removal ZIP service (src/main.py) against its
natural-language specification.  The handler remove_bg_zip is embedded as a
pure function: entry-level external effects (zipfile reads, image decoding,
the rembg call, PNG encoding) are resolved by oracle fields on each entry,
and archive parsing and output-buffer sizing are oracle parameters of the
handler.
-/

namespace BgRemove

/-- Characters of a string literal, used for entry names and messages. -/
def chars (s : String) : List Char := s.data

/-- Allowed image extensions, from ALLOWED_EXTENSIONS in main.py line 32. -/
def ALLOWED_EXTENSIONS : List (List Char) :=
  [chars ".png", chars ".jpg", chars ".jpeg", chars ".webp"]

/-- Lower-case every character, modelling str.lower on the names involved. -/
def lowerStr (s : List Char) : List Char := s.map Char.toLower

/-- Index of the last occurrence of a character in a list, if any. -/
def rfindChar (c : Char) : List Char → Option Nat
  | [] => none
  | a :: rest =>
    match rfindChar c rest with
    | some i => some (i + 1)
    | none => if a = c then some 0 else none

/-- Start of the basename: one past the last path separator. -/
def basenameStart (p : List Char) : Nat :=
  match rfindChar '/' p with
  | some i => i + 1
  | none => 0

/-- os.path.basename: the part of the path after the last separator. -/
def basename (p : List Char) : List Char := p.drop (basenameStart p)

/-- Extension part of os.path.splitext: the segment from the last dot on,
provided that dot lies in the basename and a non-dot character of the
basename comes before it (leading dots never begin an extension). -/
def splitextExt (p : List Char) : List Char :=
  match rfindChar '.' p with
  | none => []
  | some d =>
    let lo := basenameStart p
    if lo ≤ d ∧ ((p.drop lo).take (d - lo)).any (fun ch => ch != '.') then
      p.drop d
    else []

/-- Root part of os.path.splitext: the path with the extension removed. -/
def splitextRoot (p : List Char) : List Char :=
  match rfindChar '.' p with
  | none => p
  | some d =>
    let lo := basenameStart p
    if lo ≤ d ∧ ((p.drop lo).take (d - lo)).any (fun ch => ch != '.') then
      p.take d
    else p

/-- str.endswith of Python. -/
def endsWithL (s suf : List Char) : Bool :=
  decide (suf.length ≤ s.length) && decide (s.drop (s.length - suf.length) = suf)

/-- One entry of the uploaded ZIP as seen by the processing loop.  filename
and file_size come from the zip directory record (file_info); bytes is what
reading the entry yields.  The last three fields resolve the external calls
made for this entry: whether the first zip_ref.open succeeds, what the
decode / remove-background / PNG-encode pipeline yields (none when any of
those raises), and whether the second open-and-read done for the
pass-through copy succeeds. -/
structure FileInfo where
  filename : List Char
  file_size : Nat
  bytes : List Nat
  openOk : Bool
  pipeline : Option (List Nat)
  reopenOk : Bool
deriving DecidableEq

/-- The membership test of main.py lines 98-99: the lower-cased extension of
the entry name is in the allow-list. -/
def extAllowed (name : List Char) : Bool :=
  decide (lowerStr (splitextExt name) ∈ ALLOWED_EXTENSIONS)

/-- Output-archive entries the loop writes for one file_info, in order,
following main.py lines 94-122: size-0 entries are skipped; names with
unrecognized extensions fall through the classifier with nothing written;
for recognized entries a successful pipeline writes the PNG bytes under the
name with its extension replaced by .png, a pipeline failure writes the
original bytes under the original name, and a failure of the first open or
of the pass-through re-read writes nothing (the outer except does continue). -/
def entryOut (e : FileInfo) : List (List Char × List Nat) :=
  if e.file_size = 0 then []
  else if extAllowed e.filename then
    if e.openOk then
      match e.pipeline with
      | some png => [(splitextRoot e.filename ++ chars ".png", png)]
      | none => if e.reopenOk then [(e.filename, e.bytes)] else []
    else []
  else []

/-- Does this entry increment processed_files (main.py line 113)? -/
def isProcessed (e : FileInfo) : Bool :=
  decide (e.file_size ≠ 0) && extAllowed e.filename && e.openOk &&
    e.pipeline.isSome

/-- One iteration of the loop body, threading the output archive written so
far and the processed_files counter. -/
def stepEntry (acc : List (List Char × List Nat) × Nat) (e : FileInfo) :
    List (List Char × List Nat) × Nat :=
  if e.file_size = 0 then acc
  else if extAllowed e.filename then
    if e.openOk then
      match e.pipeline with
      | some png =>
        (acc.1 ++ [(splitextRoot e.filename ++ chars ".png", png)], acc.2 + 1)
      | none =>
        if e.reopenOk then (acc.1 ++ [(e.filename, e.bytes)], acc.2) else acc
    else acc
  else acc

/-- The whole loop of main.py lines 93-122 over zip_ref.infolist(). -/
def processEntries (es : List FileInfo) : List (List Char × List Nat) × Nat :=
  es.foldl stepEntry ([], 0)

/-- The uploaded multipart file: its declared filename and raw bytes. -/
structure Upload where
  filename : List Char
  contents : List Nat
deriving DecidableEq

/-- Result of handing the uploaded bytes to zipfile.ZipFile: a parsed entry
list, or the BadZipFile exception. -/
inductive ParseResult where
  | ok (entries : List FileInfo)
  | badZip
deriving DecidableEq

/-- A successful StreamingResponse as assembled in main.py lines 131-141. -/
structure SuccessResponse where
  status : Nat
  archive : List (List Char × List Nat)
  contentDisposition : List Char
  contentLength : Nat
  mediaType : List Char
deriving DecidableEq

/-- Result of the POST handler: a streamed archive, or an HTTPException with
a status code and a detail message. -/
inductive HandlerResult where
  | ok (resp : SuccessResponse)
  | err (status : Nat) (detail : List Char)
deriving DecidableEq

/-- The POST /remove-bg-zip/ handler, main.py lines 62-149.  parse stands
for zipfile.ZipFile applied to the uploaded bytes, zipSize for the byte
size of the assembled output buffer, and excStr for Python str() applied to
a caught HTTPException, given its status code and detail; all three are
external to the modelled logic.  file is none when no multipart file was
provided.  Exception flow: the HTTPException(400) raises at lines 88 (ZIP
file is empty) and 126 (No valid images found in the ZIP file) happen
inside the inner try of line 82, and HTTPException subclasses Exception, so
the blanket except Exception at line 147 catches both and re-raises
HTTPException(500, Error processing file: str(e)), which the outer except
HTTPException at line 151 propagates unchanged: the client sees 500 there.
The 400 of line 76 (empty body) is raised outside the inner try, and the
400 of line 145 (Invalid ZIP file format) is raised inside the sibling
except BadZipFile handler, so both escape to the client as 400. -/
def remove_bg_zip (parse : List Nat → ParseResult)
    (zipSize : List (List Char × List Nat) → Nat)
    (excStr : Nat → List Char → List Char)
    (file : Option Upload) : HandlerResult :=
  match file with
  | none => .err 400 (chars "No file provided")
  | some f =>
    if f.filename = [] then .err 400 (chars "No file provided")
    else if !endsWithL (lowerStr f.filename) (chars ".zip") then
      .err 400 (chars "File must be a ZIP file")
    else if f.contents = [] then .err 400 (chars "The uploaded file is empty")
    else
      match parse f.contents with
      | .badZip => .err 400 (chars "Invalid ZIP file format")
      | .ok entries =>
        if entries = [] then
          .err 500 (chars "Error processing file: " ++
            excStr 400 (chars "ZIP file is empty"))
        else if (processEntries entries).2 = 0 then
          .err 500 (chars "Error processing file: " ++
            excStr 400 (chars "No valid images found in the ZIP file"))
        else
          .ok { status := 200
                archive := (processEntries entries).1
                contentDisposition :=
                  chars "attachment; filename=processed_" ++ basename f.filename
                contentLength := zipSize (processEntries entries).1
                mediaType := chars "application/zip" }

/-- Sample corrupt PNG entry: nonzero declared size, opening succeeds, but
the decode pipeline raises; the pass-through re-read succeeds. -/
def corruptEntry : FileInfo :=
  { filename := chars "corrupt.png", file_size := 1, bytes := [0],
    openOk := true, pipeline := none, reopenOk := true }

/-- Sample JPEG entry whose whole pipeline succeeds, yielding PNG bytes. -/
def okJpgEntry : FileInfo :=
  { filename := chars "a.jpg", file_size := 1, bytes := [9],
    openOk := true, pipeline := some [5], reopenOk := true }

/-- Sample WEBP entry whose whole pipeline succeeds, yielding PNG bytes. -/
def okWebpEntry : FileInfo :=
  { filename := chars "a.webp", file_size := 1, bytes := [8],
    openOk := true, pipeline := some [6], reopenOk := true }

/-- Sample entry whose decode pipeline raises and whose pass-through re-read
also raises, so the outer except swallows it. -/
def rereadFailEntry : FileInfo :=
  { filename := chars "b.jpg", file_size := 1, bytes := [7],
    openOk := true, pipeline := none, reopenOk := false }

/-- Sample entry for which the first zip_ref.open already raises. -/
def openFailEntry : FileInfo :=
  { filename := chars "c.jpg", file_size := 1, bytes := [4],
    openOk := false, pipeline := none, reopenOk := true }

/-- Sample entry with declared size zero. -/
def emptySizeEntry : FileInfo :=
  { filename := chars "d.jpg", file_size := 0, bytes := [],
    openOk := true, pipeline := some [3], reopenOk := true }

/-- Sample entry with an unrecognized extension. -/
def notesTxtEntry : FileInfo :=
  { filename := chars "notes.txt", file_size := 1, bytes := [2],
    openOk := true, pipeline := some [1], reopenOk := true }

/-- Parse oracle returning the single corrupt entry. -/
def parseOneCorrupt : List Nat → ParseResult := fun _ => .ok [corruptEntry]

/-- Parse oracle returning the single successful JPEG entry. -/
def parseOneOk : List Nat → ParseResult := fun _ => .ok [okJpgEntry]

/-- Parse oracle returning an archive with no entries. -/
def parseNoEntries : List Nat → ParseResult := fun _ => .ok []

/-- Parse oracle that always raises BadZipFile. -/
def parseBad : List Nat → ParseResult := fun _ => .badZip

/-- Size oracle counting the entries of the output archive. -/
def lenSize : List (List Char × List Nat) → Nat := fun l => l.length

/-- Sample oracle for Python str() of a caught HTTPException, rendering its
status code and detail. -/
def sampleExcStr : Nat → List Char → List Char := fun code detail =>
  chars (Nat.repr code) ++ chars ": " ++ detail

/-- Sample upload named data.zip. -/
def dataZipUpload : Upload := { filename := chars "data.zip", contents := [1] }

/-- Sample upload named photos.zip. -/
def photosUpload : Upload := { filename := chars "photos.zip", contents := [2] }

/-- The response produced for photosUpload under parseOneOk and lenSize. -/
def photosResp : SuccessResponse :=
  { status := 200, archive := [(chars "a.png", [5])],
    contentDisposition := chars "attachment; filename=processed_photos.zip",
    contentLength := 1, mediaType := chars "application/zip" }

theorem stepEntry_eq (out : List (List Char × List Nat)) (cnt : Nat)
    (e : FileInfo) :
    stepEntry (out, cnt) e =
      (out ++ entryOut e, cnt + (if isProcessed e then 1 else 0)) := by
  unfold stepEntry entryOut isProcessed
  by_cases h0 : e.file_size = 0
  · simp [h0]
  · by_cases hext : extAllowed e.filename = true
    · by_cases hop : e.openOk = true
      · cases hp : e.pipeline with
        | some png => simp [h0, hext, hop, hp]
        | none =>
          by_cases hre : e.reopenOk = true
          · simp [h0, hext, hop, hp, hre]
          · simp [h0, hext, hop, hp, hre]
      · simp [h0, hext, hop]
    · simp [h0, hext]

theorem foldl_stepEntry (es : List FileInfo) :
    ∀ out cnt, es.foldl stepEntry (out, cnt) =
      (out ++ (es.map entryOut).flatten, cnt + es.countP isProcessed) := by
  induction es with
  | nil => intro out cnt; simp
  | cons e rest ih =>
    intro out cnt
    rw [List.foldl_cons, stepEntry_eq, ih]
    refine Prod.ext ?_ ?_
    · simp [List.append_assoc]
    · simp [List.countP_cons]
      cases h : isProcessed e <;> simp [h]
      all_goals omega

/-- Characterization of the loop: the output archive is the concatenation of
the per-entry outputs in entry order, and processed_files counts the entries
whose pipeline ran to completion. -/
theorem processEntries_eq (es : List FileInfo) :
    processEntries es = ((es.map entryOut).flatten, es.countP isProcessed) := by
  have h := foldl_stepEntry es [] 0
  simpa [processEntries] using h

/-- C1: code bug.  The claim (and the spec) say a well-formed, non-empty
ZIP whose processing ends with processed_files equal to 0 is answered with
HTTP 400 No valid images found in the ZIP file.  The code raises that
HTTPException at line 126 inside the inner try, the blanket except
Exception at line 147 catches it (HTTPException subclasses Exception) and
re-raises HTTPException(500, Error processing file: str(e)), so at the
failing input — data.zip parsed as the single entry corrupt.png whose
decode raises — the client receives HTTP 500, not the claimed 400. -/
theorem C1_zero_processed_is_500 :
    (processEntries [corruptEntry]).2 = 0 ∧
    remove_bg_zip parseOneCorrupt lenSize sampleExcStr (some dataZipUpload) =
      .err 500 (chars "Error processing file: " ++
        sampleExcStr 400 (chars "No valid images found in the ZIP file")) ∧
    remove_bg_zip parseOneCorrupt lenSize sampleExcStr (some dataZipUpload) ≠
      .err 400 (chars "No valid images found in the ZIP file") := by
  refine ⟨by decide, by decide, by decide⟩

/-- C2: code bug.  The claim says a well-formed ZIP container with zero
entries fails with HTTP 400 (the empty-archive validation failure), not an
HTTP 500.  The code raises HTTPException(400, ZIP file is empty) at line 88
inside the inner try, the blanket except Exception at line 147 catches it
and re-raises HTTPException(500, Error processing file: str(e)), so at the
failing input — an upload whose bytes parse as a ZIP with no entries — the
client receives exactly the HTTP 500 the claim rules out. -/
theorem C2_empty_archive_is_500 :
    parseNoEntries dataZipUpload.contents = .ok [] ∧
    remove_bg_zip parseNoEntries lenSize sampleExcStr (some dataZipUpload) =
      .err 500 (chars "Error processing file: " ++
        sampleExcStr 400 (chars "ZIP file is empty")) ∧
    remove_bg_zip parseNoEntries lenSize sampleExcStr (some dataZipUpload) ≠
      .err 400 (chars "ZIP file is empty") := by
  refine ⟨rfl, by decide, by decide⟩

/-- C3: input validation fires in the order missing file, wrong extension,
empty body, malformed container, each with its own distinct 400 message, and
each check answers regardless of whether later checks would also fail, so a
request failing several checks sees only the earliest message. -/
theorem C3_validation_order :
    (∀ parse zipSize excStr, remove_bg_zip parse zipSize excStr none =
      .err 400 (chars "No file provided")) ∧
    (∀ parse zipSize excStr (f : Upload), f.filename = [] →
      remove_bg_zip parse zipSize excStr (some f) =
        .err 400 (chars "No file provided")) ∧
    (∀ parse zipSize excStr (f : Upload), f.filename ≠ [] →
      endsWithL (lowerStr f.filename) (chars ".zip") = false →
      remove_bg_zip parse zipSize excStr (some f) =
        .err 400 (chars "File must be a ZIP file")) ∧
    (∀ parse zipSize excStr (f : Upload), f.filename ≠ [] →
      endsWithL (lowerStr f.filename) (chars ".zip") = true →
      f.contents = [] →
      remove_bg_zip parse zipSize excStr (some f) =
        .err 400 (chars "The uploaded file is empty")) ∧
    (∀ parse zipSize excStr (f : Upload), f.filename ≠ [] →
      endsWithL (lowerStr f.filename) (chars ".zip") = true →
      f.contents ≠ [] → parse f.contents = .badZip →
      remove_bg_zip parse zipSize excStr (some f) =
        .err 400 (chars "Invalid ZIP file format")) ∧
    [chars "No file provided", chars "File must be a ZIP file",
     chars "The uploaded file is empty",
     chars "Invalid ZIP file format"].Nodup := by
  refine ⟨?_, ?_, ?_, ?_, ?_, by decide⟩
  · intro parse zipSize excStr; rfl
  · intro parse zipSize excStr f h; simp [remove_bg_zip, h]
  · intro parse zipSize excStr f h1 h2; simp [remove_bg_zip, h1, h2]
  · intro parse zipSize excStr f h1 h2 h3; simp [remove_bg_zip, h1, h2, h3]
  · intro parse zipSize excStr f h1 h2 h3 h4
    simp [remove_bg_zip, h1, h2, h3, h4]

theorem C3_witness :
    remove_bg_zip parseOneOk lenSize sampleExcStr none =
      .err 400 (chars "No file provided") ∧
    remove_bg_zip parseOneOk lenSize sampleExcStr (some ⟨[], []⟩) =
      .err 400 (chars "No file provided") ∧
    remove_bg_zip parseOneOk lenSize sampleExcStr (some ⟨chars "x.rar", []⟩) =
      .err 400 (chars "File must be a ZIP file") ∧
    remove_bg_zip parseOneOk lenSize sampleExcStr (some ⟨chars "x.zip", []⟩) =
      .err 400 (chars "The uploaded file is empty") ∧
    remove_bg_zip parseBad lenSize sampleExcStr (some ⟨chars "x.zip", [3]⟩) =
      .err 400 (chars "Invalid ZIP file format") :=
  ⟨C3_validation_order.1 parseOneOk lenSize sampleExcStr,
   C3_validation_order.2.1 parseOneOk lenSize sampleExcStr ⟨[], []⟩ rfl,
   C3_validation_order.2.2.1 parseOneOk lenSize sampleExcStr
     ⟨chars "x.rar", []⟩ (by decide) (by decide),
   C3_validation_order.2.2.2.1 parseOneOk lenSize sampleExcStr
     ⟨chars "x.zip", []⟩ (by decide) (by decide) rfl,
   C3_validation_order.2.2.2.2.1 parseBad lenSize sampleExcStr
     ⟨chars "x.zip", [3]⟩ (by decide) (by decide) (by decide) rfl⟩

/-- C4 counterexample: the entry b.jpg has nonzero declared size and a
recognized extension, its open succeeds and its decode pipeline raises, yet
the output archive of a one-entry archive holds no entry at all — in
particular no pass-through copy with the original name and bytes — because
the re-read done for the pass-through copy also raises and the outer except
drops the entry. -/
theorem C4_counterexample :
    rereadFailEntry.file_size ≠ 0 ∧
    extAllowed rereadFailEntry.filename = true ∧
    rereadFailEntry.openOk = true ∧
    rereadFailEntry.pipeline = none ∧
    ¬ ((rereadFailEntry.filename, rereadFailEntry.bytes) ∈
        (processEntries [rereadFailEntry]).1) := by
  decide

/-- C4 (amended): for every non-empty entry with a recognized image
extension whose decode, background-removal, or PNG re-encode raises an
error, and whose pass-through re-read of the original bytes succeeds, the
output archive contains an entry whose name is the original entry name and
whose bytes are byte-identical to the original entry bytes, and
processed_files is not incremented for that entry. -/
theorem C4_passthrough (pre post : List FileInfo) (e : FileInfo)
    (h0 : e.file_size ≠ 0) (hext : extAllowed e.filename = true)
    (hop : e.openOk = true) (hfail : e.pipeline = none)
    (hre : e.reopenOk = true) :
    (e.filename, e.bytes) ∈ (processEntries (pre ++ e :: post)).1 ∧
    (processEntries (pre ++ e :: post)).2 =
      (processEntries (pre ++ post)).2 := by
  have h1 : entryOut e = [(e.filename, e.bytes)] := by
    simp [entryOut, h0, hext, hop, hfail, hre]
  have h2 : isProcessed e = false := by
    simp [isProcessed, hfail]
  rw [processEntries_eq, processEntries_eq]
  constructor
  · simp [h1]
  · simp [List.countP_append, List.countP_cons, h2]

theorem C4_witness :
    corruptEntry.file_size ≠ 0 ∧
    extAllowed corruptEntry.filename = true ∧
    corruptEntry.openOk = true ∧
    corruptEntry.pipeline = none ∧
    corruptEntry.reopenOk = true ∧
    ((corruptEntry.filename, corruptEntry.bytes) ∈
        (processEntries ([] ++ corruptEntry :: [])).1 ∧
     (processEntries ([] ++ corruptEntry :: [])).2 =
        (processEntries ([] ++ [])).2) :=
  ⟨by decide, by decide, by decide, by decide, by decide,
   C4_passthrough [] [] corruptEntry
     (by decide) (by decide) (by decide) (by decide) (by decide)⟩

/-- C5: the output archive is exactly the per-entry outputs in entry order,
processed_files counts the entries whose pipeline succeeded, and every
non-empty recognized-extension entry whose open and pipeline succeed
contributes exactly one output entry, named by replacing the extension of
the original name with .png and carrying the encoded PNG bytes. -/
theorem C5_processed_entries (es : List FileInfo) :
    (processEntries es).1 = (es.map entryOut).flatten ∧
    (processEntries es).2 = es.countP isProcessed ∧
    ∀ e png, e.file_size ≠ 0 → extAllowed e.filename = true →
      e.openOk = true → e.pipeline = some png →
      isProcessed e = true ∧
      entryOut e = [(splitextRoot e.filename ++ chars ".png", png)] := by
  refine ⟨by rw [processEntries_eq], by rw [processEntries_eq], ?_⟩
  intro e png h0 hext hop hp
  constructor
  · simp [isProcessed, h0, hext, hop, hp]
  · simp [entryOut, h0, hext, hop, hp]

theorem C5_witness :
    okJpgEntry.file_size ≠ 0 ∧
    extAllowed okJpgEntry.filename = true ∧
    okJpgEntry.openOk = true ∧
    okJpgEntry.pipeline = some [5] ∧
    (processEntries [okJpgEntry]).2 = [okJpgEntry].countP isProcessed ∧
    isProcessed okJpgEntry = true ∧
    entryOut okJpgEntry = [(chars "a.png", [5])] := by
  have h := C5_processed_entries [okJpgEntry]
  have h2 := h.2.2 okJpgEntry [5] (by decide) (by decide) (by decide) rfl
  exact ⟨by decide, by decide, by decide, rfl, h.2.1, h2.1,
    h2.2.trans (by decide)⟩

/-- C6: an entry with declared size 0 is skipped outright, whatever its
name, bytes and external outcomes would have been: the whole run over an
archive containing it equals the run over the archive without it, so it
contributes no output entry and leaves processed_files untouched. -/
theorem C6_skip_empty (pre post : List FileInfo) (e : FileInfo)
    (h : e.file_size = 0) :
    processEntries (pre ++ e :: post) = processEntries (pre ++ post) := by
  have h1 : entryOut e = [] := by simp [entryOut, h]
  have h2 : isProcessed e = false := by simp [isProcessed, h]
  rw [processEntries_eq, processEntries_eq]
  simp [List.countP_append, List.countP_cons, h1, h2]

theorem C6_witness :
    emptySizeEntry.file_size = 0 ∧
    processEntries ([okJpgEntry] ++ emptySizeEntry :: [corruptEntry]) =
      processEntries ([okJpgEntry] ++ [corruptEntry]) :=
  ⟨rfl, C6_skip_empty [okJpgEntry] [corruptEntry] emptySizeEntry rfl⟩

/-- C7: a non-empty entry whose lower-cased extension is outside the
allow-list is silently dropped: the run over an archive containing it
equals the run over the archive without it, so it is not copied through and
processed_files is untouched. -/
theorem C7_drop_unrecognized (pre post : List FileInfo) (e : FileInfo)
    (h0 : e.file_size ≠ 0) (hext : extAllowed e.filename = false) :
    processEntries (pre ++ e :: post) = processEntries (pre ++ post) := by
  have h1 : entryOut e = [] := by simp [entryOut, h0, hext]
  have h2 : isProcessed e = false := by simp [isProcessed, hext]
  rw [processEntries_eq, processEntries_eq]
  simp [List.countP_append, List.countP_cons, h1, h2]

theorem C7_witness :
    notesTxtEntry.file_size ≠ 0 ∧
    extAllowed notesTxtEntry.filename = false ∧
    processEntries ([okJpgEntry] ++ notesTxtEntry :: [corruptEntry]) =
      processEntries ([okJpgEntry] ++ [corruptEntry]) :=
  ⟨by decide, by decide,
   C7_drop_unrecognized [okJpgEntry] [corruptEntry] notesTxtEntry
     (by decide) (by decide)⟩

/-- C8: every successful request is answered with status 200, the assembled
archive as body, Content-Disposition attachment; filename=processed_
followed by the basename of the uploaded filename, Content-Length equal to
the byte size of the body buffer, and media type application/zip. -/
theorem C8_response (parse : List Nat → ParseResult)
    (zipSize : List (List Char × List Nat) → Nat)
    (excStr : Nat → List Char → List Char) (f : Upload)
    (resp : SuccessResponse)
    (h : remove_bg_zip parse zipSize excStr (some f) = .ok resp) :
    resp.status = 200 ∧
    resp.mediaType = chars "application/zip" ∧
    resp.contentDisposition =
      chars "attachment; filename=processed_" ++ basename f.filename ∧
    resp.contentLength = zipSize resp.archive := by
  simp only [remove_bg_zip] at h
  repeat' split at h
  all_goals cases h
  exact ⟨rfl, rfl, rfl, rfl⟩

theorem C8_witness :
    remove_bg_zip parseOneOk lenSize sampleExcStr (some photosUpload) =
      .ok photosResp ∧
    photosResp.status = 200 ∧
    photosResp.mediaType = chars "application/zip" ∧
    photosResp.contentDisposition =
      chars "attachment; filename=processed_" ++ basename photosUpload.filename ∧
    photosResp.contentLength = lenSize photosResp.archive :=
  ⟨by decide,
   C8_response parseOneOk lenSize sampleExcStr photosUpload photosResp
     (by decide)⟩

/-- C9: an archive holding a.jpg and a.webp, two distinct names that both
process successfully, yields an output archive with two entries both named
a.png: output names are not deduplicated or made unique. -/
theorem C9_name_collision :
    okJpgEntry.filename ≠ okWebpEntry.filename ∧
    (processEntries [okJpgEntry, okWebpEntry]).1 =
      [(chars "a.png", [5]), (chars "a.png", [6])] ∧
    (processEntries [okJpgEntry, okWebpEntry]).2 = 2 := by
  decide

/-- C10: a non-empty recognized-extension entry for which the first open of
the entry stream raises, or for which the pipeline raises and the
pass-through re-read also raises, is omitted from the output archive
entirely, and the surrounding entries are processed exactly as if it were
absent: the batch is not aborted. -/
theorem C10_hard_failure_dropped (pre post : List FileInfo) (e : FileInfo)
    (h0 : e.file_size ≠ 0) (hext : extAllowed e.filename = true)
    (h : e.openOk = false ∨ (e.pipeline = none ∧ e.reopenOk = false)) :
    processEntries (pre ++ e :: post) = processEntries (pre ++ post) := by
  have h1 : entryOut e = [] := by
    rcases h with h | ⟨hp, hr⟩
    · simp [entryOut, h0, hext, h]
    · simp [entryOut, h0, hext, hp, hr]
  have h2 : isProcessed e = false := by
    rcases h with h | ⟨hp, hr⟩
    · simp [isProcessed, h]
    · simp [isProcessed, hp]
  rw [processEntries_eq, processEntries_eq]
  simp [List.countP_append, List.countP_cons, h1, h2]

theorem C10_witness :
    openFailEntry.file_size ≠ 0 ∧
    extAllowed openFailEntry.filename = true ∧
    openFailEntry.openOk = false ∧
    processEntries ([okJpgEntry] ++ openFailEntry :: [corruptEntry]) =
      processEntries ([okJpgEntry] ++ [corruptEntry]) :=
  ⟨by decide, by decide, rfl,
   C10_hard_failure_dropped [okJpgEntry] [corruptEntry] openFailEntry
     (by decide) (by decide) (Or.inl rfl)⟩

end BgRemove
